import Mathlib

/-!
Shallow embedding of the document-processing pipeline of the Hackrx
repository (Convex backend `convex/documents.ts`, AI layer `convex/ai.ts`,
upload component `DocumentUpload.tsx`) and proofs about the frozen claims.

Modelling conventions:
* Document and user ids are `Nat`; the Convex tables become association
  lists inside a `DB` structure, and `ctx.db.patch` becomes a map over the
  association list (a patch to an id that is not present leaves the store
  unchanged; the platform would reject such a write, and no claim depends
  on that case).
* Promises/exceptions become `Except String`; a thrown `Error(msg)`
  is `.error msg`.
* The network fetch performed by `parseDocumentContent` is an oracle
  argument `fetchResult : Except String Unit` standing for the outcome of
  `fetch(fileUrl)` / `response.arrayBuffer()` on the given locator.
* JavaScript's `Number` confidence values are embedded as `ℚ`; the only
  confidence the code ever produces is the literal constant `0.85`.
-/

namespace Hackrx

/-- JS `s.split(sep)` for a one-character separator, on char lists:
`"" .split(",") = [""]`, separators delimit (possibly empty) fields. -/
def splitOnCharList (sep : Char) : List Char → List (List Char)
  | [] => [[]]
  | c :: rest =>
    let r := splitOnCharList sep rest
    if c = sep then [] :: r
    else
      match r with
      | [] => [[c]]
      | h :: t => (c :: h) :: t

/-- JS `content.split(",")` (the call in `analyzeDocument`). -/
def jsSplitComma (s : String) : List String :=
  (splitOnCharList ',' s.data).map fun l => String.mk l

/-- JS `k.trim()`: strip leading and trailing whitespace. -/
def jsTrim (s : String) : String :=
  String.mk (((s.data.dropWhile Char.isWhitespace).reverse.dropWhile
    Char.isWhitespace).reverse)

/-- The fixed placeholder the extractor returns for a `pdf` document
(`convex/documents.ts`, `parseDocumentContent`). -/
def pdfPlaceholder : String :=
  "PDF content extracted (placeholder - implement PDF parser)"

/-- The fixed placeholder the extractor returns for a `docx` document. -/
def docxPlaceholder : String :=
  "DOCX content extracted (placeholder - implement DOCX parser)"

/-- The failure sentinel written by `markProcessingFailed`. -/
def failureSentinel : String := "Processing failed"

/-- A row of the `documents` table (`convex/schema.ts`). -/
structure Document where
  userId : Nat
  fileName : String
  fileType : String
  fileSize : Nat
  storageId : Nat
  parsedContent : String
  uploadTime : Nat
  summary : Option String
  classification : Option String
  keywords : Option (List String)
  isProcessed : Bool
deriving Repr, DecidableEq

/-- A row of the `documentAnalysis` table (`convex/schema.ts`). -/
structure AnalysisRecord where
  documentId : Nat
  userId : Nat
  analysisType : String
  result : String
  confidence : ℚ
  createdAt : Nat
deriving Repr, DecidableEq

/-- The persistent state: both tables plus the scheduler queue of pending
`processDocument` triggers and the id allocator. -/
structure DB where
  documents : List (Nat × Document)
  analyses : List AnalysisRecord
  scheduled : List Nat
  nextId : Nat
deriving Repr, DecidableEq

/-- `ctx.db.get(documentId)` on the `documents` table. -/
def DB.getDoc (db : DB) (documentId : Nat) : Option Document :=
  (db.documents.find? fun p => p.1 == documentId).map Prod.snd

/-- `ctx.db.patch(documentId, fields)`: update the named row in place. -/
def DB.patchDoc (db : DB) (documentId : Nat) (f : Document → Document) : DB :=
  { db with
    documents := db.documents.map fun p =>
      if p.1 = documentId then (p.1, f p.2) else p }

/-- `saveDocument` (`convex/documents.ts`): insert the fresh record with
`parsedContent = ""`, `isProcessed = false`, and schedule a
`processDocument` trigger for it; returns the new id. -/
def saveDocument (db : DB) (userId : Nat) (fileName fileType : String)
    (fileSize storageId now : Nat) : DB × Nat :=
  let documentId := db.nextId
  let doc : Document :=
    { userId := userId, fileName := fileName, fileType := fileType
      fileSize := fileSize, storageId := storageId, parsedContent := ""
      uploadTime := now, summary := none, classification := none
      keywords := none, isProcessed := false }
  ({ db with
      documents := db.documents ++ [(documentId, doc)]
      scheduled := db.scheduled ++ [documentId]
      nextId := db.nextId + 1 }, documentId)

/-- `updateParsedContent` (internal mutation): patch `parsedContent` and
set `isProcessed := true`. -/
def updateParsedContent (db : DB) (documentId : Nat) (parsedContent : String) : DB :=
  db.patchDoc documentId fun d =>
    { d with parsedContent := parsedContent, isProcessed := true }

/-- `markProcessingFailed` (internal mutation): patch `isProcessed := false`
and write the failure sentinel into `parsedContent`. -/
def markProcessingFailed (db : DB) (documentId : Nat) : DB :=
  db.patchDoc documentId fun d =>
    { d with isProcessed := false, parsedContent := failureSentinel }

/-- `saveAnalysis` (internal mutation): insert one `documentAnalysis` row. -/
def saveAnalysis (db : DB) (documentId userId : Nat)
    (analysisType result : String) (confidence : ℚ) (now : Nat) : DB :=
  { db with
    analyses := db.analyses ++
      [{ documentId := documentId, userId := userId
         analysisType := analysisType, result := result
         confidence := confidence, createdAt := now }] }

/-- `updateDocumentAnalysis` (internal mutation): one patch setting
`summary`, `classification` and `keywords` together. -/
def updateDocumentAnalysis (db : DB) (documentId : Nat)
    (summary classification : String) (keywords : List String) : DB :=
  db.patchDoc documentId fun d =>
    { d with summary := some summary, classification := some classification
             keywords := some keywords }

/-- `deleteDocument` (public mutation): after the merged
missing-or-foreign check, delete the row and every analysis row indexed by
the document (the storage blob deletion has no database effect). -/
def deleteDocument (db : DB) (caller documentId : Nat) : Except String DB :=
  match db.getDoc documentId with
  | none => .error "Document not found or access denied"
  | some document =>
    if document.userId = caller then
      .ok { db with
        documents := db.documents.filter fun p => !(p.1 == documentId)
        analyses := db.analyses.filter fun a => !(a.documentId == documentId) }
    else .error "Document not found or access denied"

/-- The effective `take` count of `getUserDocuments`: JS `args.limit || 50`
(an absent or zero limit is falsy and falls back to 50). -/
def effectiveLimit : Option Nat → Nat
  | none => 50
  | some 0 => 50
  | some (n + 1) => n + 1

/-- `getUserDocuments` (public query): the caller's rows from the
`by_user_and_upload_time` index in descending order, then
`take(args.limit || 50)`. -/
def getUserDocuments (db : DB) (userId : Nat) (limit : Option Nat) :
    List (Nat × Document) :=
  (((db.documents.filter fun p => p.2.userId == userId).mergeSort
      fun a b => b.2.uploadTime ≤ a.2.uploadTime).take (effectiveLimit limit))

/-- `getDocument` (public query): merged missing-or-foreign check, then the
record together with its `downloadUrl` from storage (`storage` is the
oracle for `ctx.storage.getUrl`). -/
def getDocument (db : DB) (storage : Nat → Option String)
    (caller documentId : Nat) : Except String (Document × Option String) :=
  match db.getDoc documentId with
  | none => .error "Document not found or access denied"
  | some document =>
    if document.userId = caller then .ok (document, storage document.storageId)
    else .error "Document not found or access denied"

/-- `parseDocumentContent` (`convex/documents.ts`): the whole body sits in
a `try` whose `catch` rewraps any error as `Failed to parse document: …`.
The fetch of the locator and `arrayBuffer()` run BEFORE the type dispatch;
their outcome is the oracle `fetchResult`.  A thrown `Error(m)`
stringifies as `Error: m` inside the template literal of the wrapper. -/
def parseDocumentContent (fetchResult : Except String Unit)
    (fileType : String) : Except String String :=
  match fetchResult with
  | .error e => .error ("Failed to parse document: " ++ e)
  | .ok _ =>
    if fileType = "pdf" then .ok pdfPlaceholder
    else if fileType = "docx" then .ok docxPlaceholder
    else .error
      ("Failed to parse document: Error: Unsupported file type: " ++ fileType)

/-- `{ result, confidence }` as returned by `analyzeWithAI`. -/
structure AIResponse where
  result : String
  confidence : ℚ
deriving Repr, DecidableEq

/-- `getPromptForAnalysisType` (`convex/ai.ts`). -/
def getPromptForAnalysisType (analysisType content : String) : String :=
  if analysisType = "summary" then
    "Please provide a concise summary of the following document:\n\n" ++ content
  else if analysisType = "classification" then
    "Please classify the following document into one of these categories: Legal, Financial, Technical, Marketing, HR, Other:\n\n" ++ content
  else if analysisType = "keywords" then
    "Please extract the top 10 keywords from the following document (comma-separated):\n\n" ++ content
  else if analysisType = "insights" then
    "Please provide key insights and important points from the following document:\n\n" ++ content
  else if analysisType = "question_answer" then content
  else if analysisType = "comparison" then
    "Please compare these two documents and highlight similarities and differences:\n\n" ++ content
  else content

/-- `generateMockResponse` (`convex/ai.ts`): the canned engine output per
analysis kind, independent of the content. -/
def generateMockResponse (analysisType : String) (content : String) : String :=
  if analysisType = "summary" then
    "This document contains important information about business processes and procedures. It outlines key strategies and implementation guidelines."
  else if analysisType = "classification" then "Business"
  else if analysisType = "keywords" then
    "business, strategy, implementation, process, guidelines, management, operations, efficiency"
  else if analysisType = "insights" then
    "Key insights: 1) Focus on operational efficiency, 2) Strategic planning is emphasized, 3) Implementation requires cross-team collaboration"
  else if analysisType = "question_answer" then
    "Based on the document content, here is the answer to your question..."
  else if analysisType = "comparison" then
    "Both documents share similar themes but differ in their approach to implementation. Document 1 focuses more on strategy while Document 2 emphasizes execution."
  else "Analysis completed successfully."

/-- `analyzeWithAI` (`convex/ai.ts`): builds the prompt, then returns the
mock response with the constant confidence `0.85`.  Nothing in its `try`
block can throw, so the function is total. -/
def analyzeWithAI (content analysisType : String) : AIResponse :=
  let _prompt := getPromptForAnalysisType analysisType content
  { result := generateMockResponse analysisType content, confidence := 0.85 }

/-- The prompt `chatWithDocument` forwards to the engine: the document's
parsed content concatenated with the question. -/
def chatPrompt (document : Document) (question : String) : String :=
  "Document content: " ++ document.parsedContent ++ "\n\nQuestion: " ++ question

/-- `{ answer, confidence }` returned by `chatWithDocument`. -/
structure ChatAnswer where
  answer : String
  confidence : ℚ
deriving Repr, DecidableEq

/-- `chatWithDocument` (`convex/ai.ts`): merged missing-or-foreign check,
then one `question_answer` engine call on the concatenated prompt.  The
surrounding `try/catch` never fires because `analyzeWithAI` is total. -/
def chatWithDocument (db : DB) (caller documentId : Nat) (question : String) :
    Except String ChatAnswer :=
  match db.getDoc documentId with
  | none => .error "Document not found or access denied"
  | some document =>
    if document.userId = caller then
      let response := analyzeWithAI (chatPrompt document question) "question_answer"
      .ok { answer := response.result, confidence := response.confidence }
    else .error "Document not found or access denied"

/-- The result record of `compareDocuments`. -/
structure CompareResult where
  comparison : String
  confidence : ℚ
  document1 : Nat × String
  document2 : Nat × String
deriving Repr, DecidableEq

/-- The prompt `compareDocuments` forwards to the engine. -/
def comparePrompt (doc1 doc2 : Document) : String :=
  "Document 1 (" ++ doc1.fileName ++ "): " ++ doc1.parsedContent ++
  "\n\nDocument 2 (" ++ doc2.fileName ++ "): " ++ doc2.parsedContent

/-- `compareDocuments` (`convex/ai.ts`): both records are fetched; one
merged check rejects when either is missing or foreign, with the same
error in every failing case. -/
def compareDocuments (db : DB) (caller documentId1 documentId2 : Nat) :
    Except String CompareResult :=
  match db.getDoc documentId1, db.getDoc documentId2 with
  | some doc1, some doc2 =>
    if doc1.userId = caller ∧ doc2.userId = caller then
      let comparison := analyzeWithAI (comparePrompt doc1 doc2) "comparison"
      .ok { comparison := comparison.result, confidence := comparison.confidence
            document1 := (documentId1, doc1.fileName)
            document2 := (documentId2, doc2.fileName) }
    else .error "Documents not found or access denied"
  | _, _ => .error "Documents not found or access denied"

/-- The four kinds run by `analyzeDocument`, in source order. -/
def analysisTypes : List String :=
  ["summary", "classification", "keywords", "insights"]

/-- The `saveAnalysis` row that `analyzeDocument` writes for kind `t`. -/
def mkAnalysisRecord (documentId userId : Nat) (content : String) (now : Nat)
    (t : String) : AnalysisRecord :=
  { documentId := documentId, userId := userId, analysisType := t
    result := (analyzeWithAI content t).result
    confidence := (analyzeWithAI content t).confidence
    createdAt := now }

/-- Sequentially apply the `saveAnalysis` writes of `analyzeDocument` for
the given kinds (the source's `for` loop over the four results). -/
def saveAnalyses (db : DB) (documentId userId : Nat) (content : String)
    (now : Nat) : List String → DB
  | [] => db
  | t :: ts =>
    saveAnalyses
      (saveAnalysis db documentId userId t (analyzeWithAI content t).result
        (analyzeWithAI content t).confidence now)
      documentId userId content now ts

/-- `analyzeDocument` (`convex/ai.ts`) with a failure oracle.  The whole
handler body is wrapped in `try … catch (log only)`, so the action always
returns normally; `failAt` is the index of the first step that throws:
0–3 one of the four engine calls inside `Promise.all` (the rejection
aborts the run before any write), 4–7 the corresponding `saveAnalysis`
write (the earlier writes are already committed), 8 or above the final
`updateDocumentAnalysis` write; `none` means the run succeeds. -/
def analyzeDocumentWith (db : DB) (documentId : Nat) (content : String)
    (now : Nat) (failAt : Option Nat) : DB :=
  match db.getDoc documentId with
  | none => db
  | some document =>
    match failAt with
    | some i =>
      if i < 4 then db
      else saveAnalyses db documentId document.userId content now
        (analysisTypes.take (i - 4))
    | none =>
      let db1 := saveAnalyses db documentId document.userId content now analysisTypes
      updateDocumentAnalysis db1 documentId
        (analyzeWithAI content "summary").result
        (analyzeWithAI content "classification").result
        ((jsSplitComma (analyzeWithAI content "keywords").result).map jsTrim)

/-- The sub-operations `processDocument` can invoke, for the run trace. -/
inductive OrchEff where
  | updateParsedContentEff (content : String)
  | analyzeDocumentEff (content : String)
  | markProcessingFailedEff
deriving Repr, DecidableEq

/-- The oracle for one `processDocument` run: whether
`ctx.storage.getUrl` returns a URL, the fetch outcome inside the
extractor, and the analysis failure point (see `analyzeDocumentWith`). -/
structure RunOracle where
  storageUrlOk : Bool
  fetchResult : Except String Unit
  analysisFailAt : Option Nat

/-- `processDocument` (`convex/documents.ts`): look the document up
(throwing, uncaught, when it is missing), then inside `try`: storage URL,
extraction, `updateParsedContent`, `analyzeDocument`; the `catch` runs
`markProcessingFailed`.  Returns the new state and the trace of invoked
sub-operations; nothing is ever added to the scheduler queue. -/
def processDocumentWith (db : DB) (documentId now : Nat) (o : RunOracle) :
    Except String (DB × List OrchEff) :=
  match db.getDoc documentId with
  | none => .error "Document not found"
  | some document =>
    if o.storageUrlOk then
      match parseDocumentContent o.fetchResult document.fileType with
      | .error _ =>
        .ok (markProcessingFailed db documentId, [.markProcessingFailedEff])
      | .ok parsedContent =>
        let db1 := updateParsedContent db documentId parsedContent
        let db2 := analyzeDocumentWith db1 documentId parsedContent now
          o.analysisFailAt
        .ok (db2, [.updateParsedContentEff parsedContent,
                   .analyzeDocumentEff parsedContent])
    else
      .ok (markProcessingFailed db documentId, [.markProcessingFailedEff])

/-- The MIME allow-list of `DocumentUpload.handleFileUpload`. -/
def allowedTypes : List String :=
  ["application/pdf",
   "application/vnd.openxmlformats-officedocument.wordprocessingml.document"]

/-- The client-side view of the picked file. -/
structure FileMeta where
  name : String
  mimeType : String
  size : Nat
deriving Repr, DecidableEq

/-- `handleFileUpload` (`DocumentUpload.tsx`): validate the MIME type
against the allow-list, then the 10 MiB size cap, and only then obtain an
upload URL, post the blob and call `saveDocument` (which inserts the row
and schedules the orchestrator).  Both rejections return before any of
those effects; the model assumes the blob upload itself succeeds. -/
def handleFileUpload (db : DB) (caller : Nat) (file : FileMeta)
    (storageId now : Nat) : DB × Option Nat :=
  if file.mimeType ∈ allowedTypes then
    if 10 * 1024 * 1024 < file.size then (db, none)
    else
      let fileType := if file.mimeType = "application/pdf" then "pdf" else "docx"
      let r := saveDocument db caller file.name fileType file.size storageId now
      (r.1, some r.2)
  else (db, none)

/-- The empty initial state. -/
def initDB : DB := { documents := [], analyses := [], scheduled := [], nextId := 0 }

/-- One system step: a document-writing operation as it is actually
invocable in the repository.  `saveDocument` and `deleteDocument` are the
public mutations; the internal mutations appear with the arguments their
unique call sites supply — in particular `updateParsedContent` is only
ever called by `processDocument` with a successful extractor output,
which `parseDocumentContent` shows is one of the two placeholders. -/
inductive Step : DB → DB → Prop where
  | save (db : DB) (userId : Nat) (fileName fileType : String)
      (fileSize storageId now : Nat) :
      Step db (saveDocument db userId fileName fileType fileSize storageId now).1
  | updateParsed (db : DB) (documentId : Nat) (content : String)
      (hcontent : content = pdfPlaceholder ∨ content = docxPlaceholder) :
      Step db (updateParsedContent db documentId content)
  | markFailed (db : DB) (documentId : Nat) :
      Step db (markProcessingFailed db documentId)
  | saveAnalysisStep (db : DB) (documentId userId : Nat)
      (analysisType result : String) (confidence : ℚ) (now : Nat) :
      Step db (saveAnalysis db documentId userId analysisType result confidence now)
  | updateAnalysis (db : DB) (documentId : Nat)
      (summary classification : String) (keywords : List String) :
      Step db (updateDocumentAnalysis db documentId summary classification keywords)
  | deleteDoc (db : DB) (caller documentId : Nat) (db' : DB)
      (h : deleteDocument db caller documentId = .ok db') :
      Step db db'

/-- States reachable from the empty store by system steps. -/
inductive Reachable : DB → Prop where
  | init : Reachable initDB
  | step {db db' : DB} : Reachable db → Step db db' → Reachable db'

theorem find?_patch (l : List (Nat × Document)) (documentId : Nat)
    (f : Document → Document) :
    ((l.map fun p => if p.1 = documentId then (p.1, f p.2) else p).find?
        fun p => p.1 == documentId) =
      ((l.find? fun p => p.1 == documentId).map fun p => (p.1, f p.2)) := by
  induction l with
  | nil => rfl
  | cons h t ih =>
    by_cases hh : h.1 = documentId
    · simp [List.find?_cons, hh]
    · simp [List.find?_cons, hh, ih]

theorem getDoc_patchDoc (db : DB) (documentId : Nat) (f : Document → Document) :
    (db.patchDoc documentId f).getDoc documentId =
      (db.getDoc documentId).map f := by
  unfold DB.getDoc DB.patchDoc
  rw [find?_patch]
  cases db.documents.find? fun p => p.1 == documentId <;> rfl

theorem saveAnalyses_documents (types : List String) (db : DB)
    (documentId userId : Nat) (content : String) (now : Nat) :
    (saveAnalyses db documentId userId content now types).documents =
      db.documents := by
  induction types generalizing db with
  | nil => rfl
  | cons t ts ih => simp [saveAnalyses, saveAnalysis, ih]

theorem saveAnalyses_scheduled (types : List String) (db : DB)
    (documentId userId : Nat) (content : String) (now : Nat) :
    (saveAnalyses db documentId userId content now types).scheduled =
      db.scheduled := by
  induction types generalizing db with
  | nil => rfl
  | cons t ts ih => simp [saveAnalyses, saveAnalysis, ih]

theorem saveAnalyses_analyses (types : List String) (db : DB)
    (documentId userId : Nat) (content : String) (now : Nat) :
    (saveAnalyses db documentId userId content now types).analyses =
      db.analyses ++ types.map (mkAnalysisRecord documentId userId content now) := by
  induction types generalizing db with
  | nil => simp [saveAnalyses]
  | cons t ts ih =>
    simp [saveAnalyses, saveAnalysis, ih, mkAnalysisRecord, List.append_assoc]

theorem getDoc_saveAnalyses (types : List String) (db : DB)
    (documentId userId lookupId : Nat) (content : String) (now : Nat) :
    (saveAnalyses db documentId userId content now types).getDoc lookupId =
      db.getDoc lookupId := by
  unfold DB.getDoc
  rw [saveAnalyses_documents]

/-- C2: when extraction throws for any reason (missing blob URL, fetch
failure, unsupported type), `processDocument` ends the run by
`markProcessingFailed` only: the document gets `isProcessed = false` and
the fixed failure sentinel as content, `analyzeDocument` is not among the
invoked sub-operations, no analysis row is written, and nothing new is
scheduled (no retry). -/
theorem extraction_failure_marks_failed (db : DB) (documentId now : Nat)
    (o : RunOracle) (document : Document)
    (hdoc : db.getDoc documentId = some document)
    (hfail : o.storageUrlOk = false ∨
      ∃ e, parseDocumentContent o.fetchResult document.fileType = .error e) :
    processDocumentWith db documentId now o =
      .ok (markProcessingFailed db documentId, [.markProcessingFailedEff]) ∧
    (markProcessingFailed db documentId).getDoc documentId =
      some { document with isProcessed := false,
                           parsedContent := failureSentinel } ∧
    (markProcessingFailed db documentId).analyses = db.analyses ∧
    (markProcessingFailed db documentId).scheduled = db.scheduled := by
  refine ⟨?_, ?_, rfl, rfl⟩
  · unfold processDocumentWith
    rw [hdoc]
    rcases hfail with hurl | ⟨e, he⟩
    · simp [hurl]
    · cases hb : o.storageUrlOk
      · simp
      · simp [he]
  · simp [markProcessingFailed, getDoc_patchDoc, hdoc]

/-- Witness for C2 at a concrete store: one saved `txt` document whose
extraction is rejected by the type dispatch. -/
theorem extraction_failure_marks_failed_witness :
    processDocumentWith (saveDocument initDB 0 "notes.txt" "txt" 9 3 100).1 0 101
        { storageUrlOk := true, fetchResult := .ok (), analysisFailAt := none } =
      .ok (markProcessingFailed (saveDocument initDB 0 "notes.txt" "txt" 9 3 100).1 0,
        [.markProcessingFailedEff]) ∧
    (markProcessingFailed (saveDocument initDB 0 "notes.txt" "txt" 9 3 100).1 0).getDoc 0 =
      some { userId := 0, fileName := "notes.txt", fileType := "txt"
             fileSize := 9, storageId := 3, parsedContent := failureSentinel
             uploadTime := 100, summary := none, classification := none
             keywords := none, isProcessed := false } ∧
    (markProcessingFailed (saveDocument initDB 0 "notes.txt" "txt" 9 3 100).1 0).analyses =
      (saveDocument initDB 0 "notes.txt" "txt" 9 3 100).1.analyses ∧
    (markProcessingFailed (saveDocument initDB 0 "notes.txt" "txt" 9 3 100).1 0).scheduled =
      (saveDocument initDB 0 "notes.txt" "txt" 9 3 100).1.scheduled :=
  extraction_failure_marks_failed _ 0 101 _
    { userId := 0, fileName := "notes.txt", fileType := "txt", fileSize := 9
      storageId := 3, parsedContent := "", uploadTime := 100, summary := none
      classification := none, keywords := none, isProcessed := false }
    (by decide)
    (Or.inr ⟨"Failed to parse document: Error: Unsupported file type: txt", rfl⟩)

/-- C3: if extraction succeeded and any engine call or persistence write
of the analysis step throws (`failAt = some i`), the orchestrator still
returns normally (the error is swallowed inside `analyzeDocument`'s
`catch`), and the document keeps `isProcessed = true` with the extractor
output as content and `summary`/`classification`/`keywords` still unset —
it is never rolled back to the failed state. -/
theorem analysis_failure_leaves_document_stuck (db : DB) (documentId now : Nat)
    (o : RunOracle) (document : Document) (i : Nat)
    (hdoc : db.getDoc documentId = some document)
    (hurl : o.storageUrlOk = true)
    (hfetch : o.fetchResult = .ok ())
    (hft : document.fileType = "pdf" ∨ document.fileType = "docx")
    (hfail : o.analysisFailAt = some i)
    (hs : document.summary = none) (hc : document.classification = none)
    (hk : document.keywords = none) :
    ∃ db' effs, processDocumentWith db documentId now o = .ok (db', effs) ∧
      ∃ doc', db'.getDoc documentId = some doc' ∧
        doc'.isProcessed = true ∧
        doc'.parsedContent =
          (if document.fileType = "pdf" then pdfPlaceholder else docxPlaceholder) ∧
        doc'.parsedContent ≠ failureSentinel ∧
        doc'.summary = none ∧ doc'.classification = none ∧
        doc'.keywords = none := by
  set P := if document.fileType = "pdf" then pdfPlaceholder else docxPlaceholder
    with hP
  have hparse : parseDocumentContent o.fetchResult document.fileType = .ok P := by
    rcases hft with h | h <;> simp [parseDocumentContent, hfetch, h, hP]
  have hgot1 : (updateParsedContent db documentId P).getDoc documentId =
      some { document with parsedContent := P, isProcessed := true } := by
    simp [updateParsedContent, getDoc_patchDoc, hdoc]
  have hsent : P ≠ failureSentinel := by
    rcases hft with h | h <;>
      simp [hP, h, pdfPlaceholder, docxPlaceholder, failureSentinel]
  have hrun : processDocumentWith db documentId now o =
      .ok (analyzeDocumentWith (updateParsedContent db documentId P) documentId
            P now o.analysisFailAt,
          [.updateParsedContentEff P, .analyzeDocumentEff P]) := by
    unfold processDocumentWith
    rw [hdoc]
    simp [hurl, hparse]
  have hana : analyzeDocumentWith (updateParsedContent db documentId P)
      documentId P now o.analysisFailAt =
      (if i < 4 then updateParsedContent db documentId P
       else saveAnalyses (updateParsedContent db documentId P) documentId
         document.userId P now (analysisTypes.take (i - 4))) := by
    rw [hfail]
    unfold analyzeDocumentWith
    rw [hgot1]
  refine ⟨_, _, hrun, ?_⟩
  rw [hana]
  by_cases hi : i < 4
  · rw [if_pos hi]
    exact ⟨{ document with parsedContent := P, isProcessed := true },
      hgot1, rfl, rfl, hsent, hs, hc, hk⟩
  · rw [if_neg hi]
    refine ⟨{ document with parsedContent := P, isProcessed := true },
      ?_, rfl, rfl, hsent, hs, hc, hk⟩
    rw [getDoc_saveAnalyses]
    exact hgot1

/-- Witness for C3: a saved `pdf` document whose first `saveAnalysis`
write (step index 4) throws. -/
theorem analysis_failure_leaves_document_stuck_witness :
    ∃ db' effs,
      processDocumentWith (saveDocument initDB 0 "report.pdf" "pdf" 9 3 100).1 0 101
          { storageUrlOk := true, fetchResult := .ok (), analysisFailAt := some 4 } =
        .ok (db', effs) ∧
      ∃ doc', db'.getDoc 0 = some doc' ∧
        doc'.isProcessed = true ∧
        doc'.parsedContent = (if "pdf" = "pdf" then pdfPlaceholder else docxPlaceholder) ∧
        doc'.parsedContent ≠ failureSentinel ∧
        doc'.summary = none ∧ doc'.classification = none ∧
        doc'.keywords = none :=
  analysis_failure_leaves_document_stuck _ 0 101 _
    { userId := 0, fileName := "report.pdf", fileType := "pdf", fileSize := 9
      storageId := 3, parsedContent := "", uploadTime := 100, summary := none
      classification := none, keywords := none, isProcessed := false }
    4 (by decide) rfl rfl (Or.inl rfl) rfl rfl rfl rfl

/-- The keyword list every successful run stores: the canned
comma-separated keywords string split on commas with each term trimmed. -/
def expectedKeywords : List String :=
  ["business", "strategy", "implementation", "process", "guidelines",
   "management", "operations", "efficiency"]

/-- C5: a successful run (storage URL found, fetch ok, no analysis
failure) on a `pdf` or `docx` document ends with `isProcessed = true`,
appends exactly four analysis rows whose kinds are exactly
summary/classification/keywords/insights, each with confidence `0.85`,
sets the document's classification to the engine's fixed classification
output `"Business"`, and sets its keywords to the non-empty list obtained
by splitting the keywords output on commas and trimming each term. -/
theorem successful_run_results (db : DB) (documentId now : Nat)
    (document : Document)
    (hdoc : db.getDoc documentId = some document)
    (hft : document.fileType = "pdf" ∨ document.fileType = "docx") :
    ∃ db' effs recs doc',
      processDocumentWith db documentId now
          { storageUrlOk := true, fetchResult := .ok (), analysisFailAt := none } =
        .ok (db', effs) ∧
      db'.analyses = db.analyses ++ recs ∧
      recs.length = 4 ∧
      recs.map (fun r => r.analysisType) =
        ["summary", "classification", "keywords", "insights"] ∧
      (∀ r ∈ recs, r.confidence = 0.85) ∧
      db'.getDoc documentId = some doc' ∧
      doc'.isProcessed = true ∧
      doc'.classification = some (generateMockResponse "classification" doc'.parsedContent) ∧
      doc'.classification = some "Business" ∧
      doc'.keywords =
        some ((jsSplitComma (generateMockResponse "keywords" doc'.parsedContent)).map jsTrim) ∧
      doc'.keywords = some expectedKeywords ∧
      doc'.keywords ≠ some [] := by
  set P := if document.fileType = "pdf" then pdfPlaceholder else docxPlaceholder
    with hP
  have hparse : parseDocumentContent (Except.ok ()) document.fileType = .ok P := by
    rcases hft with h | h <;> simp [parseDocumentContent, h, hP]
  have hgot1 : (updateParsedContent db documentId P).getDoc documentId =
      some { document with parsedContent := P, isProcessed := true } := by
    simp [updateParsedContent, getDoc_patchDoc, hdoc]
  have hrun : processDocumentWith db documentId now
      { storageUrlOk := true, fetchResult := .ok (), analysisFailAt := none } =
      .ok (analyzeDocumentWith (updateParsedContent db documentId P) documentId
            P now none,
          [.updateParsedContentEff P, .analyzeDocumentEff P]) := by
    unfold processDocumentWith
    rw [hdoc]
    simp [hparse]
  have hana : analyzeDocumentWith (updateParsedContent db documentId P)
      documentId P now none =
      updateDocumentAnalysis
        (saveAnalyses (updateParsedContent db documentId P) documentId
          document.userId P now analysisTypes)
        documentId (analyzeWithAI P "summary").result
        (analyzeWithAI P "classification").result
        ((jsSplitComma (analyzeWithAI P "keywords").result).map jsTrim) := by
    unfold analyzeDocumentWith
    rw [hgot1]
  have hsplit : (jsSplitComma (generateMockResponse "keywords" P)).map jsTrim =
      expectedKeywords := by
    simp only [generateMockResponse]
    decide
  refine ⟨_, _, analysisTypes.map (mkAnalysisRecord documentId document.userId P now),
    { document with
      parsedContent := P
      isProcessed := true
      summary := some (analyzeWithAI P "summary").result
      classification := some (analyzeWithAI P "classification").result
      keywords := some ((jsSplitComma (analyzeWithAI P "keywords").result).map jsTrim) },
    hrun, ?_, by simp [analysisTypes], ?_, ?_, ?_, rfl, ?_, ?_, ?_, ?_, ?_⟩
  · rw [hana]
    show (saveAnalyses (updateParsedContent db documentId P) documentId
      document.userId P now analysisTypes).analyses = _
    rw [saveAnalyses_analyses]
    rfl
  · simp [analysisTypes, mkAnalysisRecord]
  · intro r hr
    simp only [analysisTypes, List.map_cons, List.map_nil, List.mem_cons,
      List.not_mem_nil, or_false] at hr
    rcases hr with h | h | h | h <;>
      simp [h, mkAnalysisRecord, analyzeWithAI]
  · rw [hana]
    unfold updateDocumentAnalysis
    rw [getDoc_patchDoc, getDoc_saveAnalyses, hgot1]
    rfl
  · show some (analyzeWithAI P "classification").result = some (generateMockResponse "classification" P)
    simp [analyzeWithAI]
  · show some (analyzeWithAI P "classification").result = some "Business"
    simp [analyzeWithAI, generateMockResponse]
  · show some ((jsSplitComma (analyzeWithAI P "keywords").result).map jsTrim) =
      some ((jsSplitComma (generateMockResponse "keywords" P)).map jsTrim)
    simp [analyzeWithAI]
  · show some ((jsSplitComma (analyzeWithAI P "keywords").result).map jsTrim) =
      some expectedKeywords
    rw [show (analyzeWithAI P "keywords").result = generateMockResponse "keywords" P from rfl]
    rw [hsplit]
  · show some ((jsSplitComma (analyzeWithAI P "keywords").result).map jsTrim) ≠ some []
    rw [show (analyzeWithAI P "keywords").result = generateMockResponse "keywords" P from rfl]
    rw [hsplit]
    simp [expectedKeywords]

/-- Witness for C5: the successful run on one freshly saved `pdf`. -/
theorem successful_run_results_witness :
    ∃ db' effs recs doc',
      processDocumentWith (saveDocument initDB 0 "report.pdf" "pdf" 2097152 3 100).1 0 101
          { storageUrlOk := true, fetchResult := .ok (), analysisFailAt := none } =
        .ok (db', effs) ∧
      db'.analyses = (saveDocument initDB 0 "report.pdf" "pdf" 2097152 3 100).1.analyses ++ recs ∧
      recs.length = 4 ∧
      recs.map (fun r => r.analysisType) =
        ["summary", "classification", "keywords", "insights"] ∧
      (∀ r ∈ recs, r.confidence = 0.85) ∧
      db'.getDoc 0 = some doc' ∧
      doc'.isProcessed = true ∧
      doc'.classification = some (generateMockResponse "classification" doc'.parsedContent) ∧
      doc'.classification = some "Business" ∧
      doc'.keywords =
        some ((jsSplitComma (generateMockResponse "keywords" doc'.parsedContent)).map jsTrim) ∧
      doc'.keywords = some expectedKeywords ∧
      doc'.keywords ≠ some [] :=
  successful_run_results _ 0 101
    { userId := 0, fileName := "report.pdf", fileType := "pdf"
      fileSize := 2097152, storageId := 3, parsedContent := ""
      uploadTime := 100, summary := none, classification := none
      keywords := none, isProcessed := false }
    (by decide) (Or.inl rfl)

/-- C1 invariant predicate: a processed document has non-empty content
distinct from the failure sentinel. -/
def docContentInv (db : DB) : Prop :=
  ∀ p ∈ db.documents, p.2.isProcessed = true →
    p.2.parsedContent ≠ "" ∧ p.2.parsedContent ≠ failureSentinel

/-- C4 invariant predicate: `summary`, `classification` and `keywords`
are all present or all absent. -/
def analysisFieldsInv (db : DB) : Prop :=
  ∀ p ∈ db.documents,
    p.2.summary.isSome = p.2.classification.isSome ∧
    p.2.summary.isSome = p.2.keywords.isSome

theorem deleteDocument_ok_documents {db : DB} {caller documentId : Nat} {db' : DB}
    (h : deleteDocument db caller documentId = .ok db') :
    db'.documents = db.documents.filter fun p => !(p.1 == documentId) := by
  unfold deleteDocument at h
  cases hg : db.getDoc documentId with
  | none => rw [hg] at h; exact absurd h (by simp)
  | some document =>
    rw [hg] at h
    by_cases hu : document.userId = caller
    · simp only [hu, if_true] at h
      injection h with h
      subst h
      rfl
    · simp [hu] at h

theorem mem_patched {db : DB} {documentId : Nat}
    {f : Document → Document} {p : Nat × Document}
    (hp : p ∈ (db.patchDoc documentId f).documents) :
    (∃ q ∈ db.documents, p = (q.1, f q.2)) ∨ p ∈ db.documents := by
  rcases List.mem_map.mp hp with ⟨q, hq, hqe⟩
  by_cases hh : q.1 = documentId
  · rw [if_pos hh] at hqe
    exact Or.inl ⟨q, hq, hqe.symm⟩
  · rw [if_neg hh] at hqe
    exact Or.inr (hqe ▸ hq)

theorem step_preserves_docContentInv {db db' : DB} (h : Step db db')
    (hinv : docContentInv db) : docContentInv db' := by
  cases h with
  | save userId fileName fileType fileSize storageId now =>
    intro p hp hproc
    rcases List.mem_append.mp hp with hp | hp
    · exact hinv p hp hproc
    · rw [List.mem_singleton] at hp
      rw [hp] at hproc
      simp at hproc
  | updateParsed documentId content hcontent =>
    intro p hp hproc
    rcases mem_patched hp with ⟨q, hq, hqe⟩ | hp
    · rw [hqe]
      rcases hcontent with hc | hc
      · rw [hc]
        exact ⟨(by decide : pdfPlaceholder ≠ ""),
          (by decide : pdfPlaceholder ≠ failureSentinel)⟩
      · rw [hc]
        exact ⟨(by decide : docxPlaceholder ≠ ""),
          (by decide : docxPlaceholder ≠ failureSentinel)⟩
    · exact hinv p hp hproc
  | markFailed documentId =>
    intro p hp hproc
    rcases mem_patched hp with ⟨q, hq, hqe⟩ | hp
    · rw [hqe] at hproc
      simp at hproc
    · exact hinv p hp hproc
  | saveAnalysisStep documentId userId analysisType result confidence now =>
    exact hinv
  | updateAnalysis documentId summary classification keywords =>
    intro p hp hproc
    rcases mem_patched hp with ⟨q, hq, hqe⟩ | hp
    · rw [hqe] at hproc ⊢
      exact hinv q hq hproc
    · exact hinv p hp hproc
  | deleteDoc caller documentId dbnew hdel =>
    intro p hp hproc
    rw [deleteDocument_ok_documents hdel] at hp
    exact hinv p (List.mem_of_mem_filter hp) hproc

theorem step_preserves_analysisFieldsInv {db db' : DB} (h : Step db db')
    (hinv : analysisFieldsInv db) : analysisFieldsInv db' := by
  cases h with
  | save userId fileName fileType fileSize storageId now =>
    intro p hp
    rcases List.mem_append.mp hp with hp | hp
    · exact hinv p hp
    · rw [List.mem_singleton] at hp
      rw [hp]
      exact ⟨rfl, rfl⟩
  | updateParsed documentId content hcontent =>
    intro p hp
    rcases mem_patched hp with ⟨q, hq, hqe⟩ | hp
    · rw [hqe]
      exact hinv q hq
    · exact hinv p hp
  | markFailed documentId =>
    intro p hp
    rcases mem_patched hp with ⟨q, hq, hqe⟩ | hp
    · rw [hqe]
      exact hinv q hq
    · exact hinv p hp
  | saveAnalysisStep documentId userId analysisType result confidence now =>
    exact hinv
  | updateAnalysis documentId summary classification keywords =>
    intro p hp
    rcases mem_patched hp with ⟨q, hq, hqe⟩ | hp
    · rw [hqe]
      exact ⟨rfl, rfl⟩
    · exact hinv p hp
  | deleteDoc caller documentId dbnew hdel =>
    intro p hp
    rw [deleteDocument_ok_documents hdel] at hp
    exact hinv p (List.mem_of_mem_filter hp)

theorem reachable_docContentInv {db : DB} (h : Reachable db) :
    docContentInv db := by
  induction h with
  | init => intro p hp _; exact absurd hp (by simp [initDB])
  | step _ hstep ih => exact step_preserves_docContentInv hstep ih

theorem reachable_analysisFieldsInv {db : DB} (h : Reachable db) :
    analysisFieldsInv db := by
  induction h with
  | init => intro p hp; exact absurd hp (by simp [initDB])
  | step _ hstep ih => exact step_preserves_analysisFieldsInv hstep ih

/-- C1: in every reachable store, every document with `isProcessed = true`
has non-empty parsed content distinct from the failure sentinel; the system
steps are exactly the operations that write a document (`saveDocument`,
`updateParsedContent` with its call-site content, `markProcessingFailed`,
`saveAnalysis`, `updateDocumentAnalysis`, `deleteDocument`), so each of
them preserves the invariant. -/
theorem processed_document_content_ok (db : DB) (p : Nat × Document)
    (h : Reachable db) (hp : p ∈ db.documents)
    (hproc : p.2.isProcessed = true) :
    p.2.parsedContent ≠ "" ∧ p.2.parsedContent ≠ failureSentinel :=
  reachable_docContentInv h p hp hproc

/-- Witness for C1: a store reached by one save and one successful
extraction write, holding one processed document. -/
theorem processed_document_content_ok_witness :
    ({ userId := 0, fileName := "report.pdf", fileType := "pdf"
       fileSize := 2097152, storageId := 5, parsedContent := pdfPlaceholder
       uploadTime := 100, summary := none, classification := none
       keywords := none, isProcessed := true } : Document).parsedContent ≠ "" ∧
    ({ userId := 0, fileName := "report.pdf", fileType := "pdf"
       fileSize := 2097152, storageId := 5, parsedContent := pdfPlaceholder
       uploadTime := 100, summary := none, classification := none
       keywords := none, isProcessed := true } : Document).parsedContent ≠
      failureSentinel :=
  processed_document_content_ok
    (updateParsedContent (saveDocument initDB 0 "report.pdf" "pdf" 2097152 5 100).1
      0 pdfPlaceholder)
    (0, { userId := 0, fileName := "report.pdf", fileType := "pdf"
          fileSize := 2097152, storageId := 5, parsedContent := pdfPlaceholder
          uploadTime := 100, summary := none, classification := none
          keywords := none, isProcessed := true })
    (Reachable.step
      (Reachable.step Reachable.init
        (Step.save initDB 0 "report.pdf" "pdf" 2097152 5 100))
      (Step.updateParsed _ 0 pdfPlaceholder (Or.inl rfl)))
    (by decide) (by decide)

/-- C4: in every reachable store, every document has `summary`,
`classification` and `keywords` all present or all absent — the only
writer that touches any of them, `updateDocumentAnalysis`, sets all three
in one write, and every other writer leaves all three untouched. -/
theorem analysis_fields_all_or_none (db : DB) (p : Nat × Document)
    (h : Reachable db) (hp : p ∈ db.documents) :
    p.2.summary.isSome = p.2.classification.isSome ∧
    p.2.summary.isSome = p.2.keywords.isSome :=
  reachable_analysisFieldsInv h p hp

/-- Witness for C4: a store reached by save, extraction write and one
`updateDocumentAnalysis` write, holding one fully analyzed document. -/
theorem analysis_fields_all_or_none_witness :
    ({ userId := 1, fileName := "a.docx", fileType := "docx"
       fileSize := 9, storageId := 2, parsedContent := docxPlaceholder
       uploadTime := 7, summary := some "s", classification := some "Business"
       keywords := some ["k"], isProcessed := true } : Document).summary.isSome =
      ({ userId := 1, fileName := "a.docx", fileType := "docx"
         fileSize := 9, storageId := 2, parsedContent := docxPlaceholder
         uploadTime := 7, summary := some "s", classification := some "Business"
         keywords := some ["k"], isProcessed := true } : Document).classification.isSome ∧
    ({ userId := 1, fileName := "a.docx", fileType := "docx"
       fileSize := 9, storageId := 2, parsedContent := docxPlaceholder
       uploadTime := 7, summary := some "s", classification := some "Business"
       keywords := some ["k"], isProcessed := true } : Document).summary.isSome =
      ({ userId := 1, fileName := "a.docx", fileType := "docx"
         fileSize := 9, storageId := 2, parsedContent := docxPlaceholder
         uploadTime := 7, summary := some "s", classification := some "Business"
         keywords := some ["k"], isProcessed := true } : Document).keywords.isSome :=
  analysis_fields_all_or_none
    (updateDocumentAnalysis
      (updateParsedContent (saveDocument initDB 1 "a.docx" "docx" 9 2 7).1
        0 docxPlaceholder)
      0 "s" "Business" ["k"])
    (0, { userId := 1, fileName := "a.docx", fileType := "docx"
          fileSize := 9, storageId := 2, parsedContent := docxPlaceholder
          uploadTime := 7, summary := some "s", classification := some "Business"
          keywords := some ["k"], isProcessed := true })
    (Reachable.step
      (Reachable.step
        (Reachable.step Reachable.init
          (Step.save initDB 1 "a.docx" "docx" 9 2 7))
        (Step.updateParsed _ 0 docxPlaceholder (Or.inr rfl)))
      (Step.updateAnalysis _ 0 "s" "Business" ["k"]))
    (by decide)

/-- The error `parseDocumentContent` produces for a declared type outside
the dispatch, after the outer catch rewraps it. -/
def unsupportedTypeError (fileType : String) : String :=
  "Failed to parse document: Error: Unsupported file type: " ++ fileType

/-- Counterexample for C6 as stated: with declared type `"txt"` and a
locator whose fetch fails, the extractor fails with the wrapped fetch
error, not with the unsupported-file-type error — the fetch runs before
the type dispatch. -/
theorem unsupported_type_cex :
    parseDocumentContent (Except.error "network error") "txt" =
      .error "Failed to parse document: network error" ∧
    parseDocumentContent (Except.error "network error") "txt" ≠
      .error (unsupportedTypeError "txt") := by
  constructor
  · rfl
  · intro hcon
    rw [show parseDocumentContent (Except.error "network error") "txt" =
      .error "Failed to parse document: network error" from rfl] at hcon
    injection hcon with hcon
    exact absurd hcon (by decide)

/-- C6 amended: for every locator whose fetch succeeds and every declared
type outside {pdf, docx}, the extractor fails with the unsupported-type
error (wrapped by the extractor's catch).  The extractor is a pure
function of the fetch outcome and the declared type — it has no access to
the document store, so it never mutates the document record. -/
theorem unsupported_type_rejected (fileType : String)
    (h1 : fileType ≠ "pdf") (h2 : fileType ≠ "docx") :
    parseDocumentContent (Except.ok ()) fileType =
      .error (unsupportedTypeError fileType) := by
  simp [parseDocumentContent, unsupportedTypeError, h1, h2]

/-- Witness for the amended C6 at the declared type `"txt"`. -/
theorem unsupported_type_rejected_witness :
    parseDocumentContent (Except.ok ()) "txt" =
      .error (unsupportedTypeError "txt") :=
  unsupported_type_rejected "txt" (by decide) (by decide)

/-- C7: a document-creation request whose declared (MIME) type is outside
the {pdf, docx} allow-list is rejected by the upload boundary before any
effect: `saveDocument` is never reached, so no document row is inserted
and no orchestrator trigger is scheduled. -/
theorem upload_rejected_before_any_effect (db : DB) (caller : Nat)
    (file : FileMeta) (storageId now : Nat)
    (h : file.mimeType ∉ allowedTypes) :
    handleFileUpload db caller file storageId now = (db, none) ∧
    (handleFileUpload db caller file storageId now).1.documents = db.documents ∧
    (handleFileUpload db caller file storageId now).1.scheduled = db.scheduled := by
  have hmain : handleFileUpload db caller file storageId now = (db, none) := by
    unfold handleFileUpload
    rw [if_neg h]
  exact ⟨hmain, by rw [hmain], by rw [hmain]⟩

/-- Witness for C7: a `text/plain` (txt) upload request is rejected. -/
theorem upload_rejected_before_any_effect_witness :
    handleFileUpload initDB 0 { name := "notes.txt", mimeType := "text/plain", size := 9 } 3 100 =
      (initDB, none) ∧
    (handleFileUpload initDB 0 { name := "notes.txt", mimeType := "text/plain", size := 9 } 3 100).1.documents =
      initDB.documents ∧
    (handleFileUpload initDB 0 { name := "notes.txt", mimeType := "text/plain", size := 9 } 3 100).1.scheduled =
      initDB.scheduled :=
  upload_rejected_before_any_effect initDB 0
    { name := "notes.txt", mimeType := "text/plain", size := 9 } 3 100
    (by decide)

/-- The merged precondition: the document is missing, or it exists but is
owned by another user. -/
def notFoundOrForeign (db : DB) (caller documentId : Nat) : Prop :=
  db.getDoc documentId = none ∨
    ∃ d, db.getDoc documentId = some d ∧ d.userId ≠ caller

/-- C8: for `getDocument`, `deleteDocument`, `chatWithDocument` and
`compareDocuments` (with the bad id in either position), a missing
document and a foreign-owned document produce the very same error value,
so a cross-user access attempt is observationally indistinguishable from a
nonexistent document. -/
theorem cross_user_indistinguishable_from_missing (db : DB)
    (storage : Nat → Option String) (caller documentId otherId : Nat)
    (question : String)
    (h : notFoundOrForeign db caller documentId) :
    getDocument db storage caller documentId =
      .error "Document not found or access denied" ∧
    deleteDocument db caller documentId =
      .error "Document not found or access denied" ∧
    chatWithDocument db caller documentId question =
      .error "Document not found or access denied" ∧
    compareDocuments db caller documentId otherId =
      .error "Documents not found or access denied" ∧
    compareDocuments db caller otherId documentId =
      .error "Documents not found or access denied" := by
  rcases h with hnone | ⟨d, hd, hu⟩
  · refine ⟨?_, ?_, ?_, ?_, ?_⟩
    · unfold getDocument; rw [hnone]
    · unfold deleteDocument; rw [hnone]
    · unfold chatWithDocument; rw [hnone]
    · unfold compareDocuments; rw [hnone]
    · unfold compareDocuments; rw [hnone]
      cases db.getDoc otherId <;> rfl
  · refine ⟨?_, ?_, ?_, ?_, ?_⟩
    · unfold getDocument; rw [hd]; simp [hu]
    · unfold deleteDocument; rw [hd]; simp [hu]
    · unfold chatWithDocument; rw [hd]; simp [hu]
    · unfold compareDocuments; rw [hd]
      cases db.getDoc otherId with
      | none => rfl
      | some d2 => simp [hu]
    · unfold compareDocuments; rw [hd]
      cases db.getDoc otherId with
      | none => rfl
      | some d1 => simp [hu]

/-- Witness for C8: caller `0` against a store holding only a document
owned by user `1`. -/
theorem cross_user_indistinguishable_from_missing_witness :
    getDocument (saveDocument initDB 1 "a.pdf" "pdf" 9 3 100).1 (fun _ => none) 0 0 =
      .error "Document not found or access denied" ∧
    deleteDocument (saveDocument initDB 1 "a.pdf" "pdf" 9 3 100).1 0 0 =
      .error "Document not found or access denied" ∧
    chatWithDocument (saveDocument initDB 1 "a.pdf" "pdf" 9 3 100).1 0 0 "hi" =
      .error "Document not found or access denied" ∧
    compareDocuments (saveDocument initDB 1 "a.pdf" "pdf" 9 3 100).1 0 0 99 =
      .error "Documents not found or access denied" ∧
    compareDocuments (saveDocument initDB 1 "a.pdf" "pdf" 9 3 100).1 0 99 0 =
      .error "Documents not found or access denied" :=
  cross_user_indistinguishable_from_missing
    (saveDocument initDB 1 "a.pdf" "pdf" 9 3 100).1 (fun _ => none) 0 0 99 "hi"
    (Or.inr ⟨{ userId := 1, fileName := "a.pdf", fileType := "pdf"
               fileSize := 9, storageId := 3, parsedContent := ""
               uploadTime := 100, summary := none, classification := none
               keywords := none, isProcessed := false },
      by decide, by decide⟩)

/-- Counterexample store for the `getUserDocuments` cap: 51 documents all
owned by user 0. -/
def manyDocsDB : DB :=
  { documents := (List.range 51).map fun i =>
      (i, { userId := 0, fileName := "f", fileType := "pdf", fileSize := 1
            storageId := i, parsedContent := "", uploadTime := i
            summary := none, classification := none, keywords := none
            isProcessed := false })
    analyses := [], scheduled := [], nextId := 51 }

/-- Counterexample for C9 as stated: a supplied limit of 51 returns 51
documents — `take(args.limit || 50)` only defaults, it does not cap the
page size at 50. -/
theorem getUserDocuments_no_cap_cex :
    (getUserDocuments manyDocsDB 0 (some 51)).length = 51 ∧
    ¬ (getUserDocuments manyDocsDB 0 (some 51)).length ≤ 50 := by
  have hlen : (manyDocsDB.documents.filter fun p => p.2.userId == 0).length = 51 := by
    decide
  have h : (getUserDocuments manyDocsDB 0 (some 51)).length = 51 := by
    unfold getUserDocuments
    rw [List.length_take, List.length_mergeSort, hlen]
    decide
  exact ⟨h, by omega⟩

/-- C9 amended: `getUserDocuments` returns only the caller's documents,
ordered by upload time descending; the page size is `args.limit || 50`:
it defaults to 50 when the limit is absent (or zero, which is falsy), but
a supplied nonzero limit is used as-is with no maximum cap. -/
theorem getUserDocuments_spec (db : DB) (userId : Nat) (limit : Option Nat) :
    (∀ p ∈ getUserDocuments db userId limit, p.2.userId = userId) ∧
    (getUserDocuments db userId limit).Pairwise
      (fun a b => b.2.uploadTime ≤ a.2.uploadTime) ∧
    (getUserDocuments db userId limit).length =
      min (effectiveLimit limit)
        ((db.documents.filter fun p => p.2.userId == userId).length) := by
  refine ⟨?_, ?_, ?_⟩
  · intro p hp
    have h1 := List.mem_of_mem_take hp
    have h2 := List.mem_mergeSort.mp h1
    have h3 := List.mem_filter.mp h2
    exact eq_of_beq h3.2
  · have hsorted := @List.sorted_mergeSort (Nat × Document)
      (fun a b => decide (b.2.uploadTime ≤ a.2.uploadTime))
      (fun a b c hab hbc => by
        simp only [decide_eq_true_eq] at hab hbc ⊢
        omega)
      (fun a b => by
        simp only [Bool.or_eq_true, decide_eq_true_eq]
        omega)
      (db.documents.filter fun p => p.2.userId == userId)
    have htake := List.Pairwise.sublist
      (List.take_sublist (effectiveLimit limit) _) hsorted
    exact htake.imp fun hab => of_decide_eq_true hab
  · unfold getUserDocuments
    rw [List.length_take, List.length_mergeSort]

/-- C10: `chatWithDocument` has no "document processed" precondition: for
an owned document with `isProcessed = false` (unprocessed or failed), it
does not fail — it forwards the parsed content concatenated with the
question to the engine under `question_answer` and returns the engine's
answer with confidence `0.85`. -/
theorem chat_has_no_processed_precondition (db : DB) (caller documentId : Nat)
    (question : String) (document : Document)
    (hdoc : db.getDoc documentId = some document)
    (hown : document.userId = caller)
    (hunproc : document.isProcessed = false) :
    chatWithDocument db caller documentId question =
      .ok (ChatAnswer.mk
        (analyzeWithAI (chatPrompt document question) "question_answer").result
        (analyzeWithAI (chatPrompt document question) "question_answer").confidence) ∧
    chatWithDocument db caller documentId question =
      .ok (ChatAnswer.mk
        "Based on the document content, here is the answer to your question..."
        0.85) := by
  have h1 : chatWithDocument db caller documentId question =
      .ok (ChatAnswer.mk
        (analyzeWithAI (chatPrompt document question) "question_answer").result
        (analyzeWithAI (chatPrompt document question) "question_answer").confidence) := by
    unfold chatWithDocument
    rw [hdoc]
    simp [hown]
  refine ⟨h1, ?_⟩
  rw [h1]
  simp [analyzeWithAI, generateMockResponse]

/-- Witness for C10: chatting with a document that failed processing
(`isProcessed = false`, sentinel content) still succeeds. -/
theorem chat_has_no_processed_precondition_witness :
    chatWithDocument (markProcessingFailed (saveDocument initDB 0 "a.pdf" "pdf" 9 3 100).1 0)
        0 0 "What is this?" =
      .ok (ChatAnswer.mk
        (analyzeWithAI
          (chatPrompt
            { userId := 0, fileName := "a.pdf", fileType := "pdf"
              fileSize := 9, storageId := 3, parsedContent := failureSentinel
              uploadTime := 100, summary := none, classification := none
              keywords := none, isProcessed := false } "What is this?")
          "question_answer").result
        (analyzeWithAI
          (chatPrompt
            { userId := 0, fileName := "a.pdf", fileType := "pdf"
              fileSize := 9, storageId := 3, parsedContent := failureSentinel
              uploadTime := 100, summary := none, classification := none
              keywords := none, isProcessed := false } "What is this?")
          "question_answer").confidence) ∧
    chatWithDocument (markProcessingFailed (saveDocument initDB 0 "a.pdf" "pdf" 9 3 100).1 0)
        0 0 "What is this?" =
      .ok (ChatAnswer.mk
        "Based on the document content, here is the answer to your question..."
        0.85) :=
  chat_has_no_processed_precondition _ 0 0 "What is this?"
    { userId := 0, fileName := "a.pdf", fileType := "pdf"
      fileSize := 9, storageId := 3, parsedContent := failureSentinel
      uploadTime := 100, summary := none, classification := none
      keywords := none, isProcessed := false }
    (by decide) rfl rfl

end Hackrx
